import Mathlib

/-!
# Verification of the `gerync/utils` package

Shallow embedding of the package's four modules — `ObjectKeys.ts`,
`Config.ts`, `Colorlog.ts` and `handleError.ts` — together with proofs
about the error-resolution pipeline, the message store, the key-set
validators and the color grammar.

Modelling conventions:
* JavaScript objects are modelled as typed structures; optional fields are
  `Option`-valued, with `none` standing for `undefined`.
* JavaScript string truthiness (`'' ` is falsy) is `strTruthy`/`optTruthy`;
  number truthiness (`0` is falsy) is `jsOrInt`.
* Free-form response-catalog objects are modelled as association lists;
  the named sub-branches `dupes`, `validation` and `general` are separate
  fields (message codes are assumed distinct from those three branch
  names). Object key sets contain only own enumerable keys.
* Code that can throw a `TypeError` (property access on `undefined`)
  returns `Except Unit`.
-/

namespace GeryncUtils

/-- JS truthiness of a possibly-undefined string value: `undefined` and
`''` are falsy, every other string is truthy. -/
def optTruthy : Option String → Bool
  | some s => s ≠ ""
  | none => false

/-- Source `v || d` for a possibly-undefined string value `v`. -/
def jsOrStr (v : Option String) (d : String) : String :=
  match v with
  | some s => if s = "" then d else s
  | none => d

/-- Source `v || d` for a possibly-undefined integer value `v` (`0` is falsy). -/
def jsOrInt (v : Option Int) (d : Int) : Int :=
  match v with
  | some n => if n = 0 then d else n
  | none => d

/-- Does `pat` occur at the head of `hay`? -/
def listStartsWith : List Char → List Char → Bool
  | _, [] => true
  | [], _ :: _ => false
  | a :: as, b :: bs => a = b && listStartsWith as bs

/-- Does `pat` occur anywhere inside `hay`? -/
def listHasSub (hay pat : List Char) : Bool :=
  match hay with
  | [] => listStartsWith [] pat
  | _ :: rest => listStartsWith hay pat || listHasSub rest pat

/-- JS `s.includes(sub)`: substring test (`true` on the empty pattern). -/
def jsIncludes (s sub : String) : Bool :=
  listHasSub s.data sub.data

/-- Replace the first occurrence of `pat` in `hay` by `rep`. -/
def replaceFirstList (hay pat rep : List Char) : List Char :=
  match hay with
  | [] => []
  | c :: rest =>
    if listStartsWith (c :: rest) pat then rep ++ (c :: rest).drop pat.length
    else c :: replaceFirstList rest pat rep

/-- JS `String.prototype.replace` with a string pattern replaces only the
first occurrence (with an empty pattern it inserts at the start). -/
def replaceFirst (s pat rep : String) : String :=
  String.mk (replaceFirstList s.data pat.data rep.data)

/-- JS `s.split(sep)[0]` for a one-character separator: the characters
before the first occurrence of `sep` (the whole string if absent). -/
def firstSegment (s : String) (sep : Char) : String :=
  String.mk (s.data.takeWhile (fun c => c ≠ sep))

/-- ASCII whitespace, standing for the regex class `\s` and for the
characters removed by `String.prototype.trim`. -/
def isWsChar (c : Char) : Bool :=
  c = ' ' || c = '\t' || c = '\n' || c = '\r' || c = '\x0b' || c = '\x0c'

/-- JS `s.trim()`: strip whitespace from both ends. -/
def jsTrim (s : String) : String :=
  String.mk (((s.data.dropWhile isWsChar).reverse.dropWhile isWsChar).reverse)

/-! ## `ObjectKeys.ts`

An object is represented by its list of own enumerable keys (pairwise
distinct in JavaScript, an explicit hypothesis in the theorems). -/

/-- Source `Keysamount(obj)`: `Object.keys(obj).length`. -/
def Keysamount (objKeys : List String) : Nat :=
  objKeys.length

/-- Source `KeysInRange(obj, min, max)`: `max === undefined` is modelled by
`max = none`, in which case the source sets `max = min`. -/
def KeysInRange (objKeys : List String) (min : Int) (max : Option Int) : Bool :=
  let keyCount : Int := Keysamount objKeys
  let max := match max with
    | none => min
    | some m => m
  decide (keyCount ≥ min) && decide (keyCount ≤ max)

/-- Source `KeysInRangeDetailed(obj, min, max)`: `-1` below, `1` above, `0` in
range; `max === undefined` again becomes `max = min`. -/
def KeysInRangeDetailed (objKeys : List String) (min : Int) (max : Option Int) : Int :=
  let keyCount : Int := Keysamount objKeys
  let max := match max with
    | none => min
    | some m => m
  if keyCount < min then -1
  else if keyCount > max then 1
  else 0

/-- Source `AllowedKeys(obj, keys, optionalKeys)`: size pre-check, then every
required key present, then every object key inside the allowed set. -/
def AllowedKeys (objKeys keys optionalKeys : List String) : Bool :=
  let allowedSet := (keys ++ optionalKeys).dedup
  if objKeys.length > allowedSet.length then false
  else if keys.any (fun k => !(decide (k ∈ objKeys))) then false
  else if objKeys.any (fun k => !(decide (k ∈ allowedSet))) then false
  else true

/-! ## `Config.ts`

The response catalog maps a language code to a language pack.  A pack's
top-level message entries (`possibleResponses[code]`) live in `msgs`; the
sub-objects `dupes`, `validation` and `general` that the error handler
reads are separate optional association lists. -/

structure LangPack where
  msgs : List (String × String)
  dupes : Option (List (String × String))
  validation : Option (List (String × String))
  general : Option (List (String × String))
deriving DecidableEq

/-- The empty object `{}` used when no language pack applies. -/
def emptyLangPack : LangPack :=
  { msgs := [], dupes := none, validation := none, general := none }

/-- Source `runtimePrefs`; both fields may be `undefined` on a caller-supplied
preferences object. -/
structure Prefs where
  noDupesAllowedof : Option (List String)
  acceptedLanguages : Option (List String)
deriving DecidableEq

/-- The state held by `Configs`: `runtimeResponses` and `runtimePrefs`. -/
structure Configs where
  responses : List (String × LangPack)
  prefs : Prefs
deriving DecidableEq

/-- The default runtime state before any `configure` call:
`runtimeResponses = {}`, `runtimePrefs = {noDupesAllowedof: [], acceptedLanguages: ['en']}`. -/
def defaultConfigs : Configs :=
  { responses := [],
    prefs := { noDupesAllowedof := some [], acceptedLanguages := some ["en"] } }

/-- The top-level entry `responses[lang][code]`, as read by `getMessage`
(`typeof langPack[code] === 'string'` holds exactly when the entry is
present in this typed model). -/
def langEntry (responses : List (String × LangPack)) (lang code : String) : Option String :=
  (responses.lookup lang).bind (fun pack => pack.msgs.lookup code)

/-- Source `Configs.getMessage(lang, code, fallback)`: requested language, then
English, then the caller-supplied fallback, then `undefined`. -/
def getMessage (responses : List (String × LangPack)) (lang code : String)
    (fallback : Option String) : Option String :=
  match langEntry responses lang code with
  | some s => some s
  | none =>
    match langEntry responses "en" code with
    | some s => some s
    | none => fallback

/-- First-defined choice on possibly-undefined values, used to state the
lookup order of `getMessage`. -/
def orElseO (a b : Option String) : Option String :=
  match a with
  | some x => some x
  | none => b

/-! ## `Colorlog.ts`

The three color grammars of `ColorRegex` (`hex`, `rgb`, `named`), and the
rendering decision of `Coloredlog` (styled output when the token matches a
grammar, plain `console.log` otherwise).  The `rgb` regular expression is
embedded as a deterministic matcher; determinism is justified because the
character classes of adjacent regex pieces are disjoint (digits vs
whitespace/comma/slash vs `%` vs `)`), so greedy matching with the local
backtracking of the optional alpha group decides membership. -/

/-- The alternatives of the `named` regex of `Colorlog.ts`, verbatim and
in order.  The source list is truncated after `palevioletred` (it omits
`red`, `white`, `yellow` and the rest of the CSS names) and contains the
misspelling `mineskyblue`. -/
def namedColors : List String :=
  ["aliceblue", "antiquewhite", "aqua", "aquamarine", "azure", "beige",
   "bisque", "black", "blanchedalmond", "blue", "blueviolet", "brown",
   "burlywood", "cadetblue", "chartreuse", "chocolate", "coral",
   "cornflowerblue", "cornsilk", "crimson", "cyan", "darkblue", "darkcyan",
   "darkgoldenrod", "darkgray", "darkgreen", "darkgrey", "darkkhaki",
   "darkmagenta", "darkolivegreen", "darkorange", "darkorchid", "darkred",
   "darksalmon", "darkseagreen", "darkslateblue", "darkslategray",
   "darkslategrey", "darkturquoise", "darkviolet", "deeppink",
   "deepskyblue", "dimgray", "dimgrey", "dodgerblue", "firebrick",
   "floralwhite", "forestgreen", "fuchsia", "gainsboro", "ghostwhite",
   "gold", "goldenrod", "gray", "green", "greenyellow", "grey", "honeydew",
   "hotpink", "indianred", "indigo", "ivory", "khaki", "lavender",
   "lavenderblush", "lawngreen", "lemonchiffon", "lightblue", "lightcoral",
   "lightcyan", "lightgoldenrodyellow", "lightgray", "lightgreen",
   "lightgrey", "lightpink", "lightsalmon", "lightseagreen",
   "lightskyblue", "mineskyblue", "lightslategray", "lightslategrey",
   "lightsteelblue", "lightyellow", "limegreen", "linen", "magenta",
   "mediumaquamarine", "mediumblue", "mediumorchid", "mediumpurple",
   "mediumseagreen", "mediumslateblue", "mediumspringgreen",
   "mediumturquoise", "mediumvioletred", "midnightblue", "mintcream",
   "mistyrose", "moccasin", "navajowhite", "oldlace", "olivedrab",
   "orangered", "palegoldenrod", "palegreen", "palevioletred"]

/-- ASCII lowercasing, for the case-insensitive `named` grammar. -/
def lowerStr (s : String) : String :=
  String.mk (s.data.map Char.toLower)

/-- The `named` regex is anchored, case-insensitive and a plain
alternation of literals: a match is membership after lowercasing. -/
def namedTest (s : String) : Bool :=
  namedColors.contains (lowerStr s)

/-- A hex digit, per the character class `[A-Fa-f0-9]`. -/
def isHexDig (c : Char) : Bool :=
  c.isDigit || ( 'a' ≤ c && c ≤ 'f') || ( 'A' ≤ c && c ≤ 'F')

/-- The `hex` regex: `#` followed by exactly 3, 4, 6 or 8 hex digits. -/
def hexTest (s : String) : Bool :=
  match s.data with
  | '#' :: rest =>
    rest.all isHexDig &&
      (rest.length = 3 || rest.length = 4 || rest.length = 6 || rest.length = 8)
  | _ => false

/-- Channel separator `\s*[\s,]\s*` (with `extraSlash` also admitting `/`
for the alpha separator `\s*[\s,/]\s*`): a nonempty run of whitespace, or
whitespace around a single `,` (or `/`).  Returns the rest of the input. -/
def parseSep (extraSlash : Bool) (cs : List Char) : Option (List Char) :=
  let cs1 := cs.dropWhile isWsChar
  let consumedWs := cs.length - cs1.length
  match cs1 with
  | c :: rest =>
    if c = ',' || (extraSlash && c = '/') then some (rest.dropWhile isWsChar)
    else if consumedWs > 0 then some cs1
    else none
  | [] => if consumedWs > 0 then some [] else none

/-- A color channel `\d{1,3}%?`.  A fourth consecutive digit makes the
whole regex fail (no shorter digit match can be followed by a legal
continuation), so it is rejected here. -/
def parseChannel (cs : List Char) : Option (List Char) :=
  let ds := cs.takeWhile Char.isDigit
  if ds.length = 0 || ds.length > 3 then none
  else
    match cs.drop ds.length with
    | '%' :: rest => some rest
    | rest => some rest

/-- The alpha value `(?:0|1|0?\.\d+)(?:%?)`, resolved deterministically:
`0.\d+` and `.\d+` are preferred over the bare `0`/`1` alternatives,
matching what regex backtracking accepts in the context `\s*\)$`. -/
def parseAlpha (cs : List Char) : Option (List Char) :=
  match cs with
  | '0' :: '.' :: rest =>
    let ds := rest.takeWhile Char.isDigit
    if ds.length = 0 then none else some (rest.drop ds.length)
  | '.' :: rest =>
    let ds := rest.takeWhile Char.isDigit
    if ds.length = 0 then none else some (rest.drop ds.length)
  | '0' :: rest => some rest
  | '1' :: rest => some rest
  | _ => none

/-- Alpha with its optional trailing `%`. -/
def parseAlphaPct (cs : List Char) : Option (List Char) :=
  match parseAlpha cs with
  | some ( '%' :: rest) => some rest
  | some rest => some rest
  | none => none

/-- The closing `\s*\)$`. -/
def parseClose (cs : List Char) : Bool :=
  cs.dropWhile isWsChar = [ ')' ]

/-- Body of the `rgb` regex after `rgba?\(`: three channels separated by
`\s*[\s,]\s*`, an optional `\s*[\s,/]\s*`-separated alpha, then `\s*\)$`.
If the optional alpha group fails the position is restored (the group is
skipped), mirroring regex backtracking. -/
def rgbBody (cs : List Char) : Bool :=
  match parseChannel (cs.dropWhile isWsChar) with
  | none => false
  | some cs1 =>
    match parseSep false cs1 with
    | none => false
    | some cs2 =>
      match parseChannel cs2 with
      | none => false
      | some cs3 =>
        match parseSep false cs3 with
        | none => false
        | some cs4 =>
          match parseChannel cs4 with
          | none => false
          | some cs5 =>
            match parseSep true cs5 with
            | none => parseClose cs5
            | some cs6 =>
              match parseAlphaPct cs6 with
              | none => parseClose cs5
              | some cs7 => parseClose cs7

/-- The `rgb` regex: `^rgba?\(` then `rgbBody`. -/
def rgbTest (s : String) : Bool :=
  match s.data with
  | 'r' :: 'g' :: 'b' :: 'a' :: '(' :: rest => rgbBody rest
  | 'r' :: 'g' :: 'b' :: '(' :: rest => rgbBody rest
  | _ => false

/-- Source `isValid` in `Coloredlog`: any of the three grammars accepts. -/
def isValidColor (color : String) : Bool :=
  hexTest color || rgbTest color || namedTest color

/-- What `Coloredlog` does with a line: styled console output for a valid
color token, plain unstyled `console.log` otherwise. -/
inductive LogRendering where
  | styled (color : String)
  | plain
deriving DecidableEq

/-- The rendering decision of `Coloredlog(message, color)`. -/
def coloredlogRender (color : String) : LogRendering :=
  if isValidColor color then .styled color else .plain

/-! ## `handleError.ts` -/

/-- One element of `err.errors`; the handler reads `param` and `path`. -/
structure FieldError where
  param : Option String
  path : Option String
deriving DecidableEq

/-- The error object consumed by the handler (`status`, `code`, `message`,
`errors`, `stack`), every field possibly `undefined`. -/
structure ErrObj where
  status : Option Int
  code : Option String
  message : Option String
  errors : Option (List FieldError)
  stack : Option String
deriving DecidableEq

/-- The request object consumed by the handler.  `headers` itself may be
absent (`none`), in which case reading `headers['accept-language']` is a
`TypeError`. -/
structure Req where
  lang : Option String
  language : Option String
  headers : Option (List (String × String))
  method : Option String
  originalUrl : Option String
  url : Option String
  id : Option String
  requestId : Option String
deriving DecidableEq

/-- Source `serverDefaultMessages`, keyed lookup table from the source. -/
def serverDefaultMessages : List (String × String) :=
  [("INTERNAL_SERVER_ERROR", "An internal server error occurred."),
   ("DATABASE_ERROR", "A database error occurred."),
   ("SERVICE_UNAVAILABLE", "Service is temporarily unavailable."),
   ("BAD_GATEWAY", "Bad gateway."),
   ("GATEWAY_TIMEOUT", "Gateway timed out."),
   ("NOT_IMPLEMENTED", "This feature is not implemented."),
   ("NETWORK_ERROR", "A network error occurred."),
   ("TIMEOUT", "The operation timed out.")]

/-- Language detection (`req.lang || req.language || (req.headers['accept-language'] ? ... : 'en')`).
When `lang` and `language` are falsy and `headers` is `undefined`, the
property read on `undefined` throws, modelled by `Except.error`. -/
def detectLang (req : Req) : Except Unit String :=
  if optTruthy req.lang then .ok (req.lang.getD "")
  else if optTruthy req.language then .ok (req.language.getD "")
  else
    match req.headers with
    | none => .error ()
    | some hs =>
      match hs.lookup "accept-language" with
      | some al => if al = "" then .ok "en" else .ok (firstSegment al ',')
      | none => .ok "en"

/-- Source `const statusCode = err.status || 500`. -/
def resolvedStatus (err : ErrObj) : Int :=
  jsOrInt err.status 500

/-- Source `const code = err.code || 'INTERNAL_SERVER_ERROR'`. -/
def resolvedCode (err : ErrObj) : String :=
  jsOrStr err.code "INTERNAL_SERVER_ERROR"

/-- Source `const rawErrorMessage = err.message || ''`. -/
def rawMessage (err : ErrObj) : String :=
  jsOrStr err.message ""

/-- Source `const possibleResponses = responses[lang] || responses['en'] || {}`
(a present language pack is an object, hence truthy). -/
def possibleResponsesFor (responses : List (String × LangPack)) (lang : String) : LangPack :=
  match responses.lookup lang with
  | some pack => pack
  | none =>
    match responses.lookup "en" with
    | some pack => pack
    | none => emptyLangPack

/-- The `ER_DUP_ENTRY` loop over `prefs.noDupesAllowedof`: the first field
that is a substring of the raw message assigns
`possibleResponses.dupes?.[field]` (which may be `undefined`) and breaks;
no match leaves `responseMessage` as the initial `''`. -/
def dupScan (noDupes : List String) (raw : String)
    (dupes : Option (List (String × String))) : Option String :=
  match noDupes with
  | [] => some ""
  | f :: rest =>
    if jsIncludes raw f then dupes.bind (fun d => d.lookup f)
    else dupScan rest raw dupes

/-- Source `fieldError.param || fieldError.path` (the result may be `undefined`). -/
def valFieldName (fe : FieldError) : Option String :=
  if optTruthy fe.param then fe.param else fe.path

/-- Source `possibleResponses.validation?.[fieldName]`; an `undefined` field name
indexes the absent key `"undefined"`, hence yields `undefined`. -/
def valLookup (validation : Option (List (String × String)))
    (name : Option String) : Option String :=
  match name with
  | none => none
  | some n => validation.bind (fun v => v.lookup n)

/-- The `VALIDATION_ERROR` loop: the first field error whose name has a
truthy entry in `possibleResponses.validation` assigns it and breaks; no
match leaves `responseMessage` as the initial `''`. -/
def valScan (fes : List FieldError)
    (validation : Option (List (String × String))) : Option String :=
  match fes with
  | [] => some ""
  | fe :: rest =>
    let v := valLookup validation (valFieldName fe)
    if optTruthy v then v else valScan rest validation

/-- Primary resolution (step 3 of the spec): the duplicate-entry branch,
the validation branch, or the raw message verbatim.  The result is the JS
value of `responseMessage` after the branch (`none` = `undefined`). -/
def primaryMessage (code raw : String) (errors : Option (List FieldError))
    (pr : LangPack) (noDupes : List String) : Option String :=
  if code = "ER_DUP_ENTRY" || jsIncludes raw "ER_DUP_ENTRY" then
    dupScan noDupes raw pr.dupes
  else if code = "VALIDATION_ERROR" && errors.isSome then
    valScan (errors.getD []) pr.validation
  else some raw

/-- The fallback chain (`if (!responseMessage) { ... }`):
`possibleResponses[code]`, else the built-in default for 5xx, else
`possibleResponses.general?.error || serverDefaultMessages['INTERNAL_SERVER_ERROR']`. -/
def fallbackChain (pr : LangPack) (statusCode : Int) (code : String) : String :=
  if optTruthy (pr.msgs.lookup code) then (pr.msgs.lookup code).getD ""
  else if decide (statusCode ≥ 500) && optTruthy (serverDefaultMessages.lookup code) then
    (serverDefaultMessages.lookup code).getD ""
  else
    jsOrStr (pr.general.bind (fun g => g.lookup "error"))
      ((serverDefaultMessages.lookup "INTERNAL_SERVER_ERROR").getD "")

/-- The primary resolution of an invocation, with the language pack and
duplicate-field list (`prefs.noDupesAllowedof || []`) the handler reads
for `(cfg, err, lang)`. -/
def primaryOf (cfg : Configs) (err : ErrObj) (lang : String) : Option String :=
  primaryMessage (resolvedCode err) (rawMessage err) err.errors
    (possibleResponsesFor cfg.responses lang) (cfg.prefs.noDupesAllowedof.getD [])

/-- The resolved user-facing message: the primary resolution when truthy,
otherwise the fallback chain. -/
def resolveMessage (cfg : Configs) (err : ErrObj) (lang : String) : String :=
  let pm := primaryOf cfg err lang
  if optTruthy pm then pm.getD ""
  else fallbackChain (possibleResponsesFor cfg.responses lang)
    (resolvedStatus err) (resolvedCode err)

/-- A value when truthy, nothing otherwise; used to phrase "try X, else". -/
def truthyOr (o : Option String) : Option String :=
  if optTruthy o then o else none

/-- The fallback chain as the spec words it: "try `possibleResponses[code]`;
else, if `status ≥ 500`, try a fixed built-in default text for that code;
else try `possibleResponses.general.error`; else use the built-in default
for `INTERNAL_SERVER_ERROR`".  Written from the spec to be compared with
`fallbackChain` embedded from the source. -/
def specFallbackChain (pr : LangPack) (statusCode : Int) (code : String) : String :=
  match truthyOr (pr.msgs.lookup code) with
  | some m => m
  | none =>
    match (if statusCode ≥ 500 then truthyOr (serverDefaultMessages.lookup code) else none) with
    | some m => m
    | none =>
      match truthyOr (pr.general.bind (fun g => g.lookup "error")) with
      | some m => m
      | none => (serverDefaultMessages.lookup "INTERNAL_SERVER_ERROR").getD ""

/-- Source `userCausedCodes`, verbatim from the source. -/
def userCausedCodes : List String :=
  ["VALIDATION_ERROR", "ER_DUP_ENTRY", "BAD_REQUEST", "UNAUTHORIZED",
   "FORBIDDEN", "NOT_FOUND", "CONFLICT", "METHOD_NOT_ALLOWED",
   "NOT_ACCEPTABLE", "UNSUPPORTED_MEDIA_TYPE", "PAYLOAD_TOO_LARGE",
   "UNPROCESSABLE_ENTITY", "TOO_MANY_REQUESTS"]

/-- Source `(statusCode >= 400 && statusCode < 500) || userCausedCodes.has(code)`. -/
def isUserError (statusCode : Int) (code : String) : Bool :=
  (decide (statusCode ≥ 400) && decide (statusCode < 500)) || userCausedCodes.contains code

/-- Source `` `${req.method || ''} ${req.originalUrl || req.url || ''}`.trim() ``. -/
def routeInfoOf (req : Req) : String :=
  jsTrim (jsOrStr req.method "" ++ " " ++ jsOrStr req.originalUrl (jsOrStr req.url ""))

/-- Source `req.id || req.requestId || ''`. -/
def requestIdOf (req : Req) : String :=
  jsOrStr req.id (jsOrStr req.requestId "")

/-- The banner line of the diagnostic report: twenty-one `=` signs, the
words ERROR REPORT between single spaces, twenty-one `=` signs again. -/
def reportBanner : String :=
  String.mk (List.replicate 21 '=') ++ " ERROR REPORT " ++ String.mk (List.replicate 21 '=')

/-- The footer line of the diagnostic report: fifty-six `=` signs. -/
def reportFooter : String :=
  String.mk (List.replicate 56 '=')

/-- The diagnostic report: the `(message, color)` pairs passed to
`Coloredlog`, in emission order.  `now` stands for
`new Date().toISOString()`; JS `replace` rewrites only the first `T`/`Z`. -/
def diagnosticLines (now : String) (req : Req) (err : ErrObj)
    (statusCode : Int) (code respMsg raw : String) : List (String × String) :=
  let exactTime := replaceFirst (replaceFirst now "T" " ") "Z" ""
  let route := routeInfoOf req
  let reqId := requestIdOf req
  [(reportBanner, "red"), ("Time: " ++ exactTime, "yellow")]
    ++ (if route ≠ "" then [("Route: " ++ route, "yellow")] else [])
    ++ (if reqId ≠ "" then [("RequestId: " ++ reqId, "yellow")] else [])
    ++ [("Status: " ++ toString statusCode, "magenta"),
        ("Code: " ++ code, "magenta"),
        ("UserMessage: " ++ respMsg, "cyan"),
        ("RawMessage: " ++ raw, "white"),
        ("Stack:", "gray"),
        (match err.stack with
         | some s => if s = "" then "N/A" else s
         | none => "N/A", "gray"),
        (reportFooter, "red")]

/-- The JSON body written by `res.status(statusCode).json({...})`. -/
structure ResponseBody where
  status : String
  code : String
  message : String
deriving DecidableEq

/-- Everything observable about one handler invocation: the single JSON
body, the numeric status passed to `res.status`, the `Coloredlog` calls,
and whether `next` was invoked with an error (the source contains no call
to `next` at all). -/
structure HandlerOutput where
  response : ResponseBody
  resStatus : Int
  logLines : List (String × String)
  nextCalledWithError : Bool
deriving DecidableEq

/-- The whole of `errorHandler(err, req, res, next)`.  `cfg` is the state
of `Configs` at the call, `now` the ISO timestamp of the call.  The only
throwing step is language detection (property read on an absent `headers`
object); every other path produces exactly one response. -/
def errorHandler (cfg : Configs) (now : String) (err : ErrObj) (req : Req) :
    Except Unit HandlerOutput :=
  match detectLang req with
  | .error e => .error e
  | .ok lang =>
    let statusCode := resolvedStatus err
    let code := resolvedCode err
    let raw := rawMessage err
    let respMsg := resolveMessage cfg err lang
    let logs :=
      if isUserError statusCode code then []
      else diagnosticLines now req err statusCode code respMsg raw
    .ok { response := { status := "error", code := code, message := respMsg },
          resStatus := statusCode,
          logLines := logs,
          nextCalledWithError := false }

/-! ## Concrete fixtures used by the scenario theorems and witnesses -/

/-- A fixed call timestamp (`new Date().toISOString()` output shape). -/
def now0 : String := "2026-01-01T00:00:00.000Z"

/-- The §8 scenario error: `{status: 500, code: "DATABASE_ERROR", message: "conn timeout"}`. -/
def errDb : ErrObj :=
  { status := some 500, code := some "DATABASE_ERROR",
    message := some "conn timeout", errors := none, stack := none }

/-- A request carrying an explicit language tag. -/
def reqEn : Req :=
  { lang := some "en", language := none, headers := none, method := none,
    originalUrl := none, url := none, id := none, requestId := none }

/-- A request with every field absent, in particular no `headers` object. -/
def reqEmpty : Req :=
  { lang := none, language := none, headers := none, method := none,
    originalUrl := none, url := none, id := none, requestId := none }

/-- A generic application error outside the duplicate/validation branches. -/
def errPlain : ErrObj :=
  { status := some 400, code := some "SOME_CODE",
    message := some "hello", errors := none, stack := none }

/-- The exact output of the handler on `(defaultConfigs, now0, errDb, reqEn)`:
raw message passed through to the client, full diagnostic report emitted. -/
def outDb : HandlerOutput :=
  { response := { status := "error", code := "DATABASE_ERROR", message := "conn timeout" },
    resStatus := 500,
    logLines :=
      [(reportBanner, "red"),
       ("Time: 2026-01-01 00:00:00.000", "yellow"),
       ("Status: 500", "magenta"),
       ("Code: DATABASE_ERROR", "magenta"),
       ("UserMessage: conn timeout", "cyan"),
       ("RawMessage: conn timeout", "white"),
       ("Stack:", "gray"),
       ("N/A", "gray"),
       (reportFooter, "red")],
    nextCalledWithError := false }

/-! ## Helper lemmas -/

lemma truthyOr_of_truthy (o : Option String) (h : optTruthy o = true) :
    truthyOr o = o := by
  simp [truthyOr, h]

lemma truthyOr_of_falsy (o : Option String) (h : optTruthy o = false) :
    truthyOr o = none := by
  simp [truthyOr, h]

lemma optTruthy_exists (o : Option String) (h : optTruthy o = true) :
    ∃ m, o = some m ∧ m ≠ "" := by
  cases o with
  | none => simp [optTruthy] at h
  | some s => exact ⟨s, rfl, by simpa [optTruthy] using h⟩

lemma optTruthy_some_empty : optTruthy (some "") = false := rfl

/-- The fallback chain embedded from the source coincides with the chain
as the spec words it. -/
lemma fallbackChain_eq_specFallbackChain (pr : LangPack) (s : Int) (c : String) :
    fallbackChain pr s c = specFallbackChain pr s c := by
  by_cases h1 : optTruthy (pr.msgs.lookup c)
  · obtain ⟨m, hm, hne⟩ := optTruthy_exists _ h1
    have hms : optTruthy (some m) = true := by simp [optTruthy, hne]
    simp [fallbackChain, specFallbackChain, truthyOr, h1, hm, hms]
  · simp only [Bool.not_eq_true] at h1
    by_cases h2 : s ≥ 500
    · by_cases h3 : optTruthy (serverDefaultMessages.lookup c)
      · obtain ⟨m, hm, hne⟩ := optTruthy_exists _ h3
        have hms : optTruthy (some m) = true := by simp [optTruthy, hne]
        simp [fallbackChain, specFallbackChain, truthyOr, h1, h2, h3, hm, hms]
      · simp only [Bool.not_eq_true] at h3
        cases h4 : pr.general.bind (fun g => g.lookup "error") with
        | none => simp [fallbackChain, specFallbackChain, truthyOr, jsOrStr, h1, h2, h3, h4]
        | some g =>
          have hgt : optTruthy (some g) = !(decide (g = "")) := by simp [optTruthy]
          by_cases hg : g = "" <;>
            simp [fallbackChain, specFallbackChain, truthyOr, jsOrStr, optTruthy_some_empty, h1, h2, h3, h4, hgt, hg]
    · cases h4 : pr.general.bind (fun g => g.lookup "error") with
      | none => simp [fallbackChain, specFallbackChain, truthyOr, jsOrStr, h1, h2, h4]
      | some g =>
        have hgt : optTruthy (some g) = !(decide (g = "")) := by simp [optTruthy]
        by_cases hg : g = "" <;>
          simp [fallbackChain, specFallbackChain, truthyOr, jsOrStr, optTruthy_some_empty, h1, h2, h4, hgt, hg]

/-! ## Theorems -/

/-- C7: with `max` omitted, `KeysInRange(obj, n)` is true exactly when
`KeysInRangeDetailed(obj, n, n)` returns `0`; with `max` omitted both
functions use exact-match semantics (`count == n`), and with `max`
supplied `KeysInRange` is true exactly when `min ≤ count ≤ max`. -/
theorem keysInRange_agrees_with_detailed (objKeys : List String) (n lo hi : Int) :
    (KeysInRange objKeys n none = true ↔ KeysInRangeDetailed objKeys n (some n) = 0)
    ∧ (KeysInRange objKeys n none = true ↔ (Keysamount objKeys : Int) = n)
    ∧ (KeysInRangeDetailed objKeys n none = 0 ↔ (Keysamount objKeys : Int) = n)
    ∧ (KeysInRange objKeys lo (some hi) = true ↔
        (lo ≤ (Keysamount objKeys : Int) ∧ (Keysamount objKeys : Int) ≤ hi)) := by
  simp only [KeysInRange, KeysInRangeDetailed, Keysamount, Bool.and_eq_true,
    decide_eq_true_eq]
  refine ⟨?_, ?_, ?_, ?_⟩ <;> (try split_ifs) <;> (try simp) <;> omega

/-- C10: falsy error fields are treated as absent before resolution: a
status of `0` or an absent status resolves to `500`, an empty or absent
code resolves to `"INTERNAL_SERVER_ERROR"`, and an empty or absent
message resolves to `""`. -/
theorem falsy_error_fields_treated_absent (st : Option Int) (c m : Option String)
    (er : Option (List FieldError)) (sk : Option String) :
    resolvedStatus { status := some 0, code := c, message := m, errors := er, stack := sk } = 500
    ∧ resolvedStatus { status := none, code := c, message := m, errors := er, stack := sk } = 500
    ∧ resolvedCode { status := st, code := some "", message := m, errors := er, stack := sk }
        = "INTERNAL_SERVER_ERROR"
    ∧ resolvedCode { status := st, code := none, message := m, errors := er, stack := sk }
        = "INTERNAL_SERVER_ERROR"
    ∧ rawMessage { status := st, code := c, message := some "", errors := er, stack := sk } = ""
    ∧ rawMessage { status := st, code := c, message := none, errors := er, stack := sk } = "" := by
  refine ⟨rfl, rfl, rfl, rfl, rfl, rfl⟩

/-- C8: `getMessage(lang, code, fallback)` follows exactly the order:
the requested language's entry, else the hardcoded `"en"` entry, else the
caller-supplied fallback, else absent; in particular on a catalog holding
only `"en"`, `getMessage("de", code, fb)` yields the `"en"` value when it
exists. -/
theorem getMessage_follows_lookup_order (responses : List (String × LangPack))
    (lang code : String) (fb : Option String) :
    getMessage responses lang code fb =
      orElseO (langEntry responses lang code) (orElseO (langEntry responses "en" code) fb)
    ∧ (∀ (en : LangPack) (code2 : String) (fb2 : Option String),
        getMessage [("en", en)] "de" code2 fb2 = orElseO (en.msgs.lookup code2) fb2) := by
  constructor
  · cases h1 : langEntry responses lang code <;>
      cases h2 : langEntry responses "en" code <;>
      simp [getMessage, orElseO, h1, h2]
  · intro en code2 fb2
    have hde : langEntry [("en", en)] "de" code2 = none := by
      simp [langEntry, List.lookup]
    have hen : langEntry [("en", en)] "en" code2 = en.msgs.lookup code2 := by
      simp [langEntry, List.lookup]
    cases h : en.msgs.lookup code2 <;>
      simp [getMessage, orElseO, hde, hen, h]

/-- C1 counterexample: with no catalog configured and the error
`{status: 500, code: "DATABASE_ERROR", message: "conn timeout"}`, the
client-facing message the handler produces is the raw `"conn timeout"`,
not the built-in default `"A database error occurred."` — the nonempty raw
message is the verbatim primary resolution, so the built-in table is never
consulted. -/
theorem dbScenario_message_is_raw_not_default :
    (errorHandler defaultConfigs now0 errDb reqEn).toOption.map (fun o => o.response.message)
      = some "conn timeout"
    ∧ "conn timeout" ≠ "A database error occurred." := by
  exact ⟨rfl, by decide⟩

/-- C1 amended: in the no-catalog scenario the client-facing message
equals the raw message `"conn timeout"`; the error is classified
server-caused and the diagnostic report is emitted with the raw message
visible on its `RawMessage` line (the raw text also being the
client-facing message). -/
theorem dbScenario_amended_behaviour :
    errorHandler defaultConfigs now0 errDb reqEn = .ok outDb
    ∧ outDb.response.message = rawMessage errDb
    ∧ isUserError (resolvedStatus errDb) (resolvedCode errDb) = false
    ∧ outDb.logLines ≠ []
    ∧ ("RawMessage: conn timeout", "white") ∈ outDb.logLines := by
  refine ⟨rfl, rfl, rfl, by decide, by decide⟩

/-- C3 counterexample: on a request with no language fields and no
`headers` object the handler does not complete — reading
`req.headers['accept-language']` on `undefined` throws, so there are
requests (with absent fields) on which the handler raises instead of
writing a response. -/
theorem handler_raises_on_missing_headers :
    errorHandler defaultConfigs now0 errDb reqEmpty = .error () := rfl

/-- C3 amended: for every configuration, error object and request that
carries a truthy `lang` or `language` field or a `headers` object, the
handler never raises, never calls `next` with an error, and writes exactly
one JSON body `{status: "error", code, message}` with the status line set
to the resolved numeric status. -/
theorem handler_total_when_headers_present (cfg : Configs) (now : String)
    (err : ErrObj) (req : Req)
    (h : optTruthy req.lang = true ∨ optTruthy req.language = true ∨ req.headers.isSome = true) :
    ∃ out, errorHandler cfg now err req = .ok out
      ∧ out.nextCalledWithError = false
      ∧ out.response.status = "error"
      ∧ out.response.code = resolvedCode err
      ∧ out.resStatus = resolvedStatus err := by
  have hl : ∃ lang, detectLang req = .ok lang := by
    unfold detectLang
    split_ifs with h1 h2
    · exact ⟨_, rfl⟩
    · exact ⟨_, rfl⟩
    · have hs : req.headers.isSome = true := by
        rcases h with h | h | h
        · exact absurd h (by simp [h1])
        · exact absurd h (by simp [h2])
        · exact h
      obtain ⟨hdrs, hh⟩ := Option.isSome_iff_exists.mp hs
      rw [hh]
      cases hal : hdrs.lookup "accept-language" with
      | none => exact ⟨"en", by simp [hal]⟩
      | some al =>
        by_cases he : al = ""
        · exact ⟨"en", by simp [hal, he]⟩
        · exact ⟨firstSegment al ',', by simp [hal, he]⟩
  obtain ⟨lang, hl⟩ := hl
  exact ⟨_, by unfold errorHandler; rw [hl], rfl, rfl, rfl, rfl⟩

/-- C3 witness: the amended totality theorem applied to a concrete request
carrying a truthy `lang` field. -/
theorem handler_total_when_headers_present_witness :
    ∃ out, errorHandler defaultConfigs now0 errDb reqEn = .ok out
      ∧ out.nextCalledWithError = false
      ∧ out.response.status = "error"
      ∧ out.response.code = resolvedCode errDb
      ∧ out.resStatus = resolvedStatus errDb :=
  handler_total_when_headers_present defaultConfigs now0 errDb reqEn (Or.inl (by decide))

/-- C5: the diagnostic report emitted for the server-caused scenario uses,
in order, the colors red, yellow, magenta, magenta, cyan, white, gray,
gray, red — but the tokens `"red"`, `"yellow"` and `"white"` are rejected
by all three grammars of the Color Resolver (the named-color alternation
is truncated before `red`), so `Coloredlog` renders those lines plain,
contradicting the claim (and the module's own `coloredlog('Error!', 'red')`
doc example); `"magenta"`, `"cyan"` and `"gray"` are accepted. -/
theorem report_color_tokens_partially_invalid :
    (errorHandler defaultConfigs now0 errDb reqEn).toOption.map (fun o => o.logLines.map Prod.snd)
      = some ["red", "yellow", "magenta", "magenta", "cyan", "white", "gray", "gray", "red"]
    ∧ isValidColor "red" = false ∧ coloredlogRender "red" = .plain
    ∧ isValidColor "yellow" = false ∧ coloredlogRender "yellow" = .plain
    ∧ isValidColor "white" = false ∧ coloredlogRender "white" = .plain
    ∧ isValidColor "magenta" = true ∧ coloredlogRender "magenta" = .styled "magenta"
    ∧ isValidColor "cyan" = true ∧ isValidColor "gray" = true := by
  refine ⟨rfl, rfl, rfl, rfl, rfl, rfl, rfl, rfl, rfl, rfl, rfl⟩

/-- C4: the handler classifies an error user-caused iff
`400 ≤ status < 500` or its resolved code lies in the fixed closed set of
thirteen codes; the diagnostic report is emitted (nonempty `Coloredlog`
output) exactly when the error is not user-caused; and the returned
response is determined by the resolution functions alone, independent of
the emission. -/
theorem classification_and_report_emission (cfg : Configs) (now : String)
    (err : ErrObj) (req : Req) (out : HandlerOutput)
    (h : errorHandler cfg now err req = .ok out) :
    (isUserError (resolvedStatus err) (resolvedCode err) = true ↔
      ((400 ≤ resolvedStatus err ∧ resolvedStatus err < 500) ∨
        resolvedCode err ∈ (["VALIDATION_ERROR", "ER_DUP_ENTRY", "BAD_REQUEST",
          "UNAUTHORIZED", "FORBIDDEN", "NOT_FOUND", "CONFLICT",
          "METHOD_NOT_ALLOWED", "NOT_ACCEPTABLE", "UNSUPPORTED_MEDIA_TYPE",
          "PAYLOAD_TOO_LARGE", "UNPROCESSABLE_ENTITY", "TOO_MANY_REQUESTS"] : List String)))
    ∧ (out.logLines ≠ [] ↔ isUserError (resolvedStatus err) (resolvedCode err) = false)
    ∧ (∃ lang, detectLang req = .ok lang
        ∧ out.response = ⟨"error", resolvedCode err, resolveMessage cfg err lang⟩
        ∧ out.resStatus = resolvedStatus err) := by
  have hclass : isUserError (resolvedStatus err) (resolvedCode err) = true ↔
      ((400 ≤ resolvedStatus err ∧ resolvedStatus err < 500) ∨
        resolvedCode err ∈ (["VALIDATION_ERROR", "ER_DUP_ENTRY", "BAD_REQUEST",
          "UNAUTHORIZED", "FORBIDDEN", "NOT_FOUND", "CONFLICT",
          "METHOD_NOT_ALLOWED", "NOT_ACCEPTABLE", "UNSUPPORTED_MEDIA_TYPE",
          "PAYLOAD_TOO_LARGE", "UNPROCESSABLE_ENTITY", "TOO_MANY_REQUESTS"] : List String)) := by
    simp [isUserError, userCausedCodes, List.elem_iff]
  unfold errorHandler at h
  cases hdl : detectLang req with
  | error e =>
    rw [hdl] at h
    exact absurd h (by simp)
  | ok lang =>
    rw [hdl] at h
    injection h with h'
    subst h'
    refine ⟨hclass, ?_, ⟨lang, rfl, rfl, rfl⟩⟩
    by_cases hu : isUserError (resolvedStatus err) (resolvedCode err) = true
    · simp [hu]
    · simp only [Bool.not_eq_true] at hu
      simp [hu, diagnosticLines]

/-- C4 witness: the classification theorem applied to the concrete
server-caused scenario invocation. -/
theorem classification_and_report_emission_witness :
    errorHandler defaultConfigs now0 errDb reqEn = .ok outDb
    ∧ (outDb.logLines ≠ [] ↔
        isUserError (resolvedStatus errDb) (resolvedCode errDb) = false) :=
  ⟨rfl, (classification_and_report_emission defaultConfigs now0 errDb reqEn outDb rfl).2.1⟩

/-- C2: whenever the resolved code is neither `ER_DUP_ENTRY`-related nor
`VALIDATION_ERROR` with field errors, the primary resolution is the raw
message verbatim; the fallback chain runs exactly when the primary
resolution is falsy, and then it follows the spec's order: the selected
pack's entry for the code, else (only for `status ≥ 500`) the built-in
default for the code, else the pack's `general.error`, else the built-in
default for `INTERNAL_SERVER_ERROR`. -/
theorem verbatim_default_and_fallback_order (cfg : Configs) (err : ErrObj) (lang : String) :
    (resolvedCode err ≠ "ER_DUP_ENTRY" →
      jsIncludes (rawMessage err) "ER_DUP_ENTRY" = false →
      ¬(resolvedCode err = "VALIDATION_ERROR" ∧ err.errors.isSome = true) →
      primaryOf cfg err lang = some (rawMessage err))
    ∧ (optTruthy (primaryOf cfg err lang) = true →
        resolveMessage cfg err lang = (primaryOf cfg err lang).getD "")
    ∧ (optTruthy (primaryOf cfg err lang) = false →
        resolveMessage cfg err lang =
          specFallbackChain (possibleResponsesFor cfg.responses lang)
            (resolvedStatus err) (resolvedCode err)) := by
  refine ⟨?_, ?_, ?_⟩
  · intro h1 h2 h3
    unfold primaryOf primaryMessage
    rw [if_neg, if_neg]
    · simp only [Bool.and_eq_true, decide_eq_true_eq, Bool.not_eq_true]
      intro hand
      exact h3 ⟨hand.1, hand.2⟩
    · simp [h1, h2]
  · intro h
    simp [resolveMessage, h]
  · intro h
    simp [resolveMessage, h, fallbackChain_eq_specFallbackChain]

/-- C2 witness: on a generic error (`code: "SOME_CODE"`,
`message: "hello"`) the primary resolution is the raw message verbatim and
the chain does not run. -/
theorem verbatim_default_and_fallback_order_witness :
    primaryOf defaultConfigs errPlain "en" = some "hello"
    ∧ resolveMessage defaultConfigs errPlain "en" = "hello" := by
  have h := verbatim_default_and_fallback_order defaultConfigs errPlain "en"
  have h1 : primaryOf defaultConfigs errPlain "en" = some "hello" :=
    h.1 (by decide) (by decide) (by decide)
  refine ⟨h1, ?_⟩
  rw [h.2.1 (by rw [h1]; rfl), h1]
  rfl

lemma nodup_length_le_dedup (objKeys l2 : List String) (hnd : objKeys.Nodup)
    (hsub : ∀ k ∈ objKeys, k ∈ l2) : objKeys.length ≤ l2.dedup.length := by
  have h1 : objKeys.toFinset.card = objKeys.length := List.toFinset_card_of_nodup hnd
  have h2 : objKeys.toFinset ⊆ l2.toFinset := by
    intro x hx
    rw [List.mem_toFinset] at hx ⊢
    exact hsub x hx
  calc objKeys.length = objKeys.toFinset.card := h1.symm
    _ ≤ l2.toFinset.card := Finset.card_le_card h2
    _ = l2.dedup.length := List.card_toFinset l2

/-- C6: for a key-distinct object, `AllowedKeys(obj, required, optional)`
is true iff the object's keys all lie in `required ∪ optional` and every
required key is a key of the object; and the key-count pre-check rejects
only objects that already fail the subset condition. -/
theorem allowedKeys_iff_subset_conditions (objKeys keys optionalKeys : List String)
    (hnd : objKeys.Nodup) :
    (AllowedKeys objKeys keys optionalKeys = true ↔
      ((∀ k ∈ objKeys, k ∈ keys ∨ k ∈ optionalKeys) ∧ ∀ k ∈ keys, k ∈ objKeys))
    ∧ (objKeys.length > ((keys ++ optionalKeys).dedup).length →
        ¬(∀ k ∈ objKeys, k ∈ keys ∨ k ∈ optionalKeys)) := by
  have hcard : (∀ k ∈ objKeys, k ∈ keys ∨ k ∈ optionalKeys) →
      objKeys.length ≤ ((keys ++ optionalKeys).dedup).length := by
    intro hsub
    exact nodup_length_le_dedup objKeys (keys ++ optionalKeys) hnd
      (fun k hk => List.mem_append.mpr (hsub k hk))
  constructor
  · simp only [AllowedKeys]
    split_ifs with hpre hreq hout
    · simp only [Bool.false_eq_true, false_iff]
      rintro ⟨hsub, -⟩
      exact absurd (hcard hsub) (by omega)
    · simp only [Bool.false_eq_true, false_iff]
      simp only [List.any_eq_true, Bool.not_eq_true', decide_eq_false_iff_not] at hreq
      obtain ⟨k, hk, hnotin⟩ := hreq
      rintro ⟨-, hr⟩
      exact hnotin (hr k hk)
    · simp only [Bool.false_eq_true, false_iff]
      simp only [List.any_eq_true, Bool.not_eq_true', decide_eq_false_iff_not] at hout
      obtain ⟨k, hk, hnotin⟩ := hout
      rintro ⟨hs, -⟩
      exact hnotin (List.mem_dedup.mpr (List.mem_append.mpr (hs k hk)))
    · simp only [true_iff]
      simp only [List.any_eq_true, Bool.not_eq_true', decide_eq_false_iff_not,
        not_exists, not_and, not_not] at hreq hout
      constructor
      · intro k hk
        exact List.mem_append.mp (List.mem_dedup.mp (hout k hk))
      · intro k hk
        exact hreq k hk
  · intro hgt hsub
    exact absurd (hcard hsub) (by omega)

/-- C6 witness: the characterization applied to a concrete key-distinct
object with one required and one optional key. -/
theorem allowedKeys_iff_subset_conditions_witness :
    (AllowedKeys ["a", "b"] ["a"] ["b"] = true ↔
      ((∀ k ∈ ["a", "b"], k ∈ ["a"] ∨ k ∈ ["b"]) ∧ ∀ k ∈ ["a"], k ∈ ["a", "b"]))
    ∧ ((["a", "b"] : List String).length > (((["a"] ++ ["b"]) : List String).dedup).length →
        ¬(∀ k ∈ ["a", "b"], k ∈ ["a"] ∨ k ∈ ["b"])) :=
  allowedKeys_iff_subset_conditions ["a", "b"] ["a"] ["b"] (by decide)

lemma dupScan_first_match (raw : String) (dupes : Option (List (String × String)))
    (pre rest : List String) (f : String)
    (hpre : ∀ g ∈ pre, jsIncludes raw g = false) (hf : jsIncludes raw f = true) :
    dupScan (pre ++ f :: rest) raw dupes = dupes.bind (fun d => d.lookup f) := by
  induction pre with
  | nil => simp [dupScan, hf]
  | cons g gs ih =>
    have hg : jsIncludes raw g = false := hpre g (List.mem_cons_self g gs)
    simpa [dupScan, hg] using ih (fun x hx => hpre x (List.mem_cons_of_mem g hx))

/-- C9: in the `ER_DUP_ENTRY` branch the scan over
`preferences.noDupesAllowedof` stops at the first configured field that is
a substring of the raw message even when the language's `dupes` catalog
has no entry for it: the resolved primary message is then absent
(`undefined`), later configured fields are never consulted (the result is
the same for every continuation of the list), and resolution falls
through to the generic fallback chain. -/
theorem dup_scan_stops_at_first_substring_match (raw : String)
    (dupes : Option (List (String × String))) (pre rest : List String) (f : String)
    (hpre : ∀ g ∈ pre, jsIncludes raw g = false)
    (hf : jsIncludes raw f = true)
    (hmiss : dupes.bind (fun d => d.lookup f) = none) :
    dupScan (pre ++ f :: rest) raw dupes = none
    ∧ (∀ rest2, dupScan (pre ++ f :: rest2) raw dupes = none)
    ∧ (∀ (cfg : Configs) (err : ErrObj) (lang : String),
        cfg.prefs.noDupesAllowedof = some (pre ++ f :: rest) →
        resolvedCode err = "ER_DUP_ENTRY" →
        rawMessage err = raw →
        (possibleResponsesFor cfg.responses lang).dupes = dupes →
        resolveMessage cfg err lang =
          fallbackChain (possibleResponsesFor cfg.responses lang)
            (resolvedStatus err) (resolvedCode err)) := by
  have key : ∀ rest2, dupScan (pre ++ f :: rest2) raw dupes = none :=
    fun rest2 => (dupScan_first_match raw dupes pre rest2 f hpre hf).trans hmiss
  refine ⟨key rest, key, ?_⟩
  intro cfg err lang hnd hcode hraw hdup
  have hpm : primaryOf cfg err lang = none := by
    unfold primaryOf primaryMessage
    rw [hcode, hraw, hnd, hdup]
    simpa using key rest
  simp [resolveMessage, hpm, optTruthy]

/-- C9 witness: with `noDupesAllowedof = ["id", "email", "name"]`, a raw
message containing `"email"` but not `"id"`, and a `dupes` catalog with an
entry only for `"name"`, the scan stops at `"email"` with no message. -/
theorem dup_scan_stops_at_first_substring_match_witness :
    dupScan (["id"] ++ "email" :: ["name"]) "ER_DUP_ENTRY: key email"
      (some [("name", "Name taken.")]) = none :=
  (dup_scan_stops_at_first_substring_match "ER_DUP_ENTRY: key email"
    (some [("name", "Name taken.")]) ["id"] ["name"] "email"
    (by decide) (by decide) (by decide)).1

end GeryncUtils
